import Mathlib

/-
Shallow embedding of the patient-registration wizard of this repository
(src/src/pages/AddPatient.tsx) and of the dashboard CSV export
(src/src/pages/Dashboard.tsx).  Pure helpers of the React components are
translated to Lean functions; the stateful submission sequence is modelled
as explicit state passing over a record of database tables, with the
outcome of each remote insert supplied by an explicit outcome record.
-/

namespace App

/-- Result value of the JS form validators of AddPatient.tsx: such a
validator returns the boolean `true` on success and a message string on
failure (react-hook-form convention). -/
inductive ValidateResult where
  | pass : ValidateResult
  | fail (message : String) : ValidateResult
deriving DecidableEq, Repr

/-- JS truthiness of a validator result: `true` is truthy and a message
string is truthy exactly when it is non-empty. -/
def jsTruthy : ValidateResult → Bool
  | ValidateResult.pass => true
  | ValidateResult.fail m => m ≠ ""

/-- Character class `\d` of the JS regexes in AddPatient.tsx. -/
def isDigitChar (c : Char) : Bool :=
  decide ('0' ≤ c) && decide (c ≤ '9')

/-- Test of the regex `/^[6-9]\d{9}$/` from AddPatient.tsx line 183: a
first character in the class `[6-9]` followed by exactly nine digits. -/
def phoneRegexTest (s : String) : Bool :=
  match s.data with
  | [] => false
  | c :: cs =>
      (decide ('6' ≤ c) && decide (c ≤ '9')) && (cs.length == 9 && cs.all isDigitChar)

/-- The validator `validatePhoneNumber` of AddPatient.tsx lines 182-187. -/
def validatePhoneNumber (value : String) : ValidateResult :=
  if phoneRegexTest value then ValidateResult.pass
  else ValidateResult.fail "Please enter a valid 10-digit mobile number"

/-- State of the consent OTP widget of AddPatient.tsx: the React state
pair showConsentOtp/consentVerified (lines 91-92) together with the
react-hook-form field errors that the two handlers may set.
The spec state machine reads: Unsent = showConsentOtp is false,
OtpShown = showConsentOtp is true and consentVerified is false,
Verified = consentVerified is true. -/
structure ConsentOtpState where
  showConsentOtp : Bool
  consentVerified : Bool
  consentMobileError : Option String
  consentOtpError : Option String
deriving DecidableEq, Repr

/-- Handler `handleSendConsentOtp` of AddPatient.tsx lines 220-231.  The
source guard is `if (!validatePhoneNumber(consentMobile))`, i.e. a JS
truthiness test on the validator result. -/
def handleSendConsentOtp (consentMobile : String) (s : ConsentOtpState) : ConsentOtpState :=
  if jsTruthy (validatePhoneNumber consentMobile) = false then
    { s with consentMobileError := some "Please enter a valid mobile number" }
  else
    { s with showConsentOtp := true }

/-- Handler `handleVerifyConsentOtp` of AddPatient.tsx lines 233-243. -/
def handleVerifyConsentOtp (consentOtp : String) (s : ConsentOtpState) : ConsentOtpState :=
  if consentOtp = "123456" then
    { s with consentVerified := true }
  else
    { s with consentOtpError := some "Invalid OTP" }

/-- The consent widget state before any interaction: the OTP field is not
shown and nothing is verified (spec state Unsent). -/
def unsentConsentState : ConsentOtpState :=
  { showConsentOtp := false, consentVerified := false,
    consentMobileError := none, consentOtpError := none }

/-- The consent widget state after the OTP field was shown and before
verification (spec state OtpShown). -/
def otpShownState : ConsentOtpState :=
  { showConsentOtp := true, consentVerified := false,
    consentMobileError := none, consentOtpError := none }

/-- Test of the regex `/^\d{12}$/` from AddPatient.tsx line 246. -/
def aadharRegexTest (s : String) : Bool :=
  s.data.length == 12 && s.data.all isDigitChar

/-- The validator `validateAadharNumber` of AddPatient.tsx lines 245-264.
The pregnant_women table is abstracted to the list of aadhar_number
values it contains; the source query selects the row whose aadhar_number
equals the given value, and a found row yields the rejection message. -/
def validateAadharNumber (value : String) (registered : List String) : ValidateResult :=
  if aadharRegexTest value = false then
    ValidateResult.fail "Please enter a valid 12-digit Aadhar number"
  else if value ∈ registered then
    ValidateResult.fail "This Aadhar number is already registered"
  else
    ValidateResult.pass

/-- Civil calendar date in the JS `Date` field convention: `month` is the
zero-based month index (0 = January) and `day` the one-based day of
month.  The validator of AddPatient.tsx lines 189-202 is modelled at
calendar-day granularity. -/
structure CivilDate where
  year : Int
  month : Nat
  day : Nat
deriving DecidableEq, Repr

/-- Day number of a civil date (days since the Unix epoch 1970-01-01),
for a one-based month `m` in 1..12.  This is the standard days-from-civil
computation with truncating integer division, the arithmetic JS `Date`
performs internally; two `Date` values compare the way their day numbers
compare. -/
def daysFromCivil (y : Int) (m : Nat) (d : Nat) : Int :=
  let yAdj : Int := if m ≤ 2 then y - 1 else y
  let era : Int := Int.tdiv (if 0 ≤ yAdj then yAdj else yAdj - 399) 400
  let yoe : Int := yAdj - era * 400
  let mp : Nat := (m + 9) % 12
  let doy : Int := Int.tdiv (153 * (mp : Int) + 2) 5 + (d : Int) - 1
  let doe : Int := yoe * 365 + Int.tdiv yoe 4 - Int.tdiv yoe 100 + doy
  era * 146097 + doe - 719468

/-- Day number of a `CivilDate` (zero-based JS month). -/
def toDayNumber (d : CivilDate) : Int :=
  daysFromCivil d.year (d.month + 1) d.day

/-- JS `date.setMonth(m)` for a possibly negative month index `m`: the
year is shifted by the floored quotient, the month becomes the
non-negative remainder, and the day-of-month count is preserved by
adding `day - 1` days to the first of the target month (this also models
the JS rollover into the next month when the target month is shorter).
Returns the day number of the resulting date. -/
def jsSetMonth (d : CivilDate) (m : Int) : Int :=
  daysFromCivil (d.year + Int.fdiv m 12) ((Int.emod m 12).toNat + 1) 1
    + ((d.day : Int) - 1)

/-- The `minDate` of AddPatient.tsx lines 192-193: today with
`setMonth(today.getMonth() - 9)` applied, as a day number. -/
def nineMonthsBefore (today : CivilDate) : Int :=
  jsSetMonth today ((today.month : Int) - 9)

/-- The validator `validateLMP` of AddPatient.tsx lines 189-202, at
calendar-day granularity: reject dates after today, reject dates before
`minDate` (today minus 9 calendar months), accept the rest. -/
def validateLMP (lmp today : CivilDate) : ValidateResult :=
  if toDayNumber today < toDayNumber lmp then
    ValidateResult.fail "LMP date cannot be in the future"
  else if toDayNumber lmp < nineMonthsBefore today then
    ValidateResult.fail "LMP date cannot be more than 9 months ago"
  else
    ValidateResult.pass

/-- Form fields of the wizard (the keys of PatientFormData that carry a
react-hook-form registration or appear in canProceedToNextStep). -/
inductive FormField where
  | aadharNumber
  | name
  | age
  | presentAddress
  | contactNumber
  | lastMenstrualPeriod
  | numberOfChildrenAlive
  | procedureDate
  | performingDoctorId
  | referringDoctorId
  | scanPerformed
  | hasAadharRegisteredMobile
  | relativeName
  | relationshipToPatient
  | relativeContactNumber
  | consentMobile
  | consentOtp
deriving DecidableEq, Repr

/-- The react-hook-form `errors` object of AddPatient.tsx: one flag per
field recording whether the field currently carries a validation error. -/
structure FieldErrors where
  aadharNumber : Bool
  name : Bool
  age : Bool
  presentAddress : Bool
  contactNumber : Bool
  lastMenstrualPeriod : Bool
  numberOfChildrenAlive : Bool
  procedureDate : Bool
  performingDoctorId : Bool
  referringDoctorId : Bool
  scanPerformed : Bool
  hasAadharRegisteredMobile : Bool
  relativeName : Bool
  relationshipToPatient : Bool
  relativeContactNumber : Bool
  consentMobile : Bool
  consentOtp : Bool
deriving DecidableEq, Repr

/-- Error flag of a single field. -/
def fieldError (e : FieldErrors) : FormField → Bool
  | FormField.aadharNumber => e.aadharNumber
  | FormField.name => e.name
  | FormField.age => e.age
  | FormField.presentAddress => e.presentAddress
  | FormField.contactNumber => e.contactNumber
  | FormField.lastMenstrualPeriod => e.lastMenstrualPeriod
  | FormField.numberOfChildrenAlive => e.numberOfChildrenAlive
  | FormField.procedureDate => e.procedureDate
  | FormField.performingDoctorId => e.performingDoctorId
  | FormField.referringDoctorId => e.referringDoctorId
  | FormField.scanPerformed => e.scanPerformed
  | FormField.hasAadharRegisteredMobile => e.hasAadharRegisteredMobile
  | FormField.relativeName => e.relativeName
  | FormField.relationshipToPatient => e.relationshipToPatient
  | FormField.relativeContactNumber => e.relativeContactNumber
  | FormField.consentMobile => e.consentMobile
  | FormField.consentOtp => e.consentOtp

/-- The error object with every flag clear. -/
def noErrors : FieldErrors :=
  ⟨false, false, false, false, false, false, false, false, false,
   false, false, false, false, false, false, false, false⟩

/-- The gate `canProceedToNextStep` of AddPatient.tsx lines 390-414,
verbatim: each wizard step consults a fixed subset of the error flags. -/
def canProceedToNextStep (step : Nat) (errors : FieldErrors) : Bool :=
  match step with
  | 1 => !errors.name && !errors.age && !errors.contactNumber
  | 2 => !errors.lastMenstrualPeriod && !errors.numberOfChildrenAlive
  | 3 =>
      !errors.procedureDate && !errors.performingDoctorId &&
        !errors.referringDoctorId && !errors.scanPerformed
  | 4 =>
      !errors.aadharNumber && !errors.hasAadharRegisteredMobile &&
        !errors.relativeName && !errors.relationshipToPatient &&
        !errors.relativeContactNumber
  | _ => true

/-- The Continue button of AddPatient.tsx lines 1594-1606: rendered only
while `step < 4`, disabled unless `canProceedToNextStep()`, and a click
runs `setStep(step + 1)`. -/
def continueStep (step : Nat) (errors : FieldErrors) : Nat :=
  if step < 4 ∧ canProceedToNextStep step errors = true then step + 1 else step

/-- Fields carrying a `required` registration (or a required validator)
that are rendered under each wizard step, read off the JSX of
AddPatient.tsx: step 1 (lines 662-830) registers aadharNumber, name,
age, presentAddress and contactNumber as required; step 2 (lines
830-959) lastMenstrualPeriod and numberOfChildrenAlive; step 3 (lines
959-1400) procedureDate, performingDoctorId (required while no new
doctor form is open), referringDoctorId and scanPerformed; step 4
(lines 1400-1580) hasAadharRegisteredMobile, consentMobile and
consentOtp, plus relativeName and relationshipToPatient when the
no-registered-mobile answer is chosen. -/
def requiredFieldsOfStep : Nat → List FormField
  | 1 =>
      [FormField.aadharNumber, FormField.name, FormField.age,
       FormField.presentAddress, FormField.contactNumber]
  | 2 => [FormField.lastMenstrualPeriod, FormField.numberOfChildrenAlive]
  | 3 =>
      [FormField.procedureDate, FormField.performingDoctorId,
       FormField.referringDoctorId, FormField.scanPerformed]
  | 4 =>
      [FormField.hasAadharRegisteredMobile, FormField.consentMobile,
       FormField.consentOtp]
  | _ => []

/-- Fields whose error flags `canProceedToNextStep` actually consults for
each step, read off AddPatient.tsx lines 390-414. -/
def checkedFieldsOfStep : Nat → List FormField
  | 1 => [FormField.name, FormField.age, FormField.contactNumber]
  | 2 => [FormField.lastMenstrualPeriod, FormField.numberOfChildrenAlive]
  | 3 =>
      [FormField.procedureDate, FormField.performingDoctorId,
       FormField.referringDoctorId, FormField.scanPerformed]
  | 4 =>
      [FormField.aadharNumber, FormField.hasAadharRegisteredMobile,
       FormField.relativeName, FormField.relationshipToPatient,
       FormField.relativeContactNumber]
  | _ => []

/-- Values of the step-1 fields. -/
structure Step1Values where
  aadharNumber : String
  name : String
  age : Nat
  presentAddress : String
  contactNumber : String
deriving DecidableEq, Repr

/-- Error flags produced by running the step-1 validation rules of the
register calls in AddPatient.tsx on the given values: name requires
min length 2 (line 701), age requires 18..65 (line 725), presentAddress
requires min length 10 (line 775), contactNumber requires the phone
validator (line 811), aadharNumber requires `validateAadharNumber`
(line 675). -/
def step1Errors (v : Step1Values) (registered : List String) : FieldErrors :=
  { noErrors with
    aadharNumber :=
      v.aadharNumber == "" ||
        !(validateAadharNumber v.aadharNumber registered == ValidateResult.pass),
    name := v.name == "" || decide (v.name.length < 2),
    age := !(decide (18 ≤ v.age) && decide (v.age ≤ 65)),
    presentAddress := v.presentAddress == "" || decide (v.presentAddress.length < 10),
    contactNumber := v.contactNumber == "" || !phoneRegexTest v.contactNumber }

/-- Step-1 values whose presentAddress is absent while the three fields
the step-1 gate consults are valid. -/
def step1MissingAddress : Step1Values :=
  { aadharNumber := "999999999999", name := "Jo", age := 30,
    presentAddress := "", contactNumber := "9876543210" }

/-- A child sub-record of the wizard form (interface ChildFormData of
AddPatient.tsx lines 10-13); the gender union type is carried as its JS
string value. -/
structure ChildFormData where
  gender : String
  ageInYears : Nat
deriving DecidableEq, Repr

/-- The composite wizard record (interface PatientFormData of
AddPatient.tsx lines 47-78).  Optional JS fields are `Option`;
hasAadharRegisteredMobile is the string value of the step-4 select
("true" or "false"). -/
structure PatientFormData where
  aadharNumber : String
  name : String
  age : Nat
  husbandName : Option String
  fatherName : Option String
  presentAddress : String
  aadharCardAddress : Option String
  contactNumber : String
  lastMenstrualPeriod : String
  numberOfChildrenAlive : Nat
  children : List ChildFormData
  performingDoctorId : String
  referringDoctorId : String
  selectedIndications : List Nat
  procedureDate : String
  hasAadharRegisteredMobile : String
  consentMobile : String
  consentOtp : String
  relativeName : Option String
  relationshipToPatient : Option String
  scanPerformed : String
deriving DecidableEq, Repr

/-- Whether a character list starts with another character list. -/
def listStartsWith : List Char → List Char → Bool
  | _, [] => true
  | [], _ :: _ => false
  | c :: cs, d :: ds => c == d && listStartsWith cs ds

/-- Whether a character list contains another character list as a
contiguous run. -/
def listIncludes : List Char → List Char → Bool
  | [], needle => needle.isEmpty
  | c :: cs, needle => listStartsWith (c :: cs) needle || listIncludes cs needle

/-- JS `hay.includes(needle)`, the test applied to the store error
message at AddPatient.tsx line 295. -/
def jsIncludes (hay needle : String) : Bool :=
  listIncludes hay.data needle.data

/-- JS `x?.trim() || null`: an absent value stays null and a value that
trims to the empty string becomes null. -/
def jsTrimOrNull (o : Option String) : Option String :=
  match o with
  | none => none
  | some s => if s.trim = "" then none else some s.trim

/-- Row of the pregnant_women table as inserted by onSubmit (AddPatient.tsx
lines 279-293). -/
structure PatientRow where
  id : Nat
  diagnostic_center_id : String
  aadhar_number : String
  name : String
  age : Nat
  husband_name : Option String
  father_name : Option String
  present_address : String
  aadhar_card_address : Option String
  contact_number : String
deriving DecidableEq, Repr

/-- Row of the pregnancy_details table (AddPatient.tsx lines 303-311). -/
structure PregnancyRow where
  id : Nat
  pregnant_woman_id : Nat
  last_menstrual_period : String
  number_of_children_alive : Nat
deriving DecidableEq, Repr

/-- Row of the children table (AddPatient.tsx lines 317-323). -/
structure ChildRow where
  pregnancy_details_id : Nat
  gender : String
  age_in_years : Nat
deriving DecidableEq, Repr

/-- Row of the procedures table (AddPatient.tsx lines 329-339). -/
structure ProcedureRow where
  id : Nat
  pregnant_woman_id : Nat
  procedure_date : String
  attending_doctor_id : String
  referring_doctor_id : String
  scan_performed : String
deriving DecidableEq, Repr

/-- Row of the procedure_indications join table (AddPatient.tsx lines
344-355). -/
structure ProcedureIndicationRow where
  procedure_id : Nat
  indication_type_id : Nat
deriving DecidableEq, Repr

/-- Row of the consent table (AddPatient.tsx lines 361-378). -/
structure ConsentRow where
  pregnant_woman_id : Nat
  has_aadhar_registered_mobile : Bool
  mobile_number : String
  otp_verified : Bool
  verification_details : String
  relative_name : Option String
  relationship_to_patient : Option String
  relative_contact_number : Option String
deriving DecidableEq, Repr

/-- The tables the submission sequencer writes, each a list of rows in
insertion order. -/
structure Database where
  pregnant_women : List PatientRow
  pregnancy_details : List PregnancyRow
  children : List ChildRow
  procedures : List ProcedureRow
  procedure_indications : List ProcedureIndicationRow
  consent : List ConsentRow
deriving DecidableEq, Repr

/-- The empty database. -/
def emptyDb : Database := ⟨[], [], [], [], [], []⟩

/-- Error value rejected by a data-store insert: the code and message the
caller inspects (AddPatient.tsx line 295). -/
structure DbError where
  code : String
  message : String
deriving DecidableEq, Repr

/-- Outcome of each remote insert of the submission sequence, supplied to
the model from outside: `none` means the insert is accepted, `some e`
that the store rejects it with error `e`.  A rejected insert writes no
row. -/
structure InsertOutcomes where
  patient : Option DbError
  pregnancy : Option DbError
  childrenIns : Option DbError
  procedure : Option DbError
  indications : Option DbError
  consentIns : Option DbError
deriving DecidableEq, Repr

/-- The six inserts of the sequence, for the attempt log. -/
inductive InsertKind where
  | patient
  | pregnancy
  | childrenIns
  | procedure
  | indications
  | consentIns
deriving DecidableEq, Repr

/-- Observable result of a run of onSubmit: the database afterwards, the
wizard step afterwards, the aadhar and consent-OTP error states, whether
the generic failure toast was shown, whether the page navigated to the
dashboard, and the ordered log of inserts attempted. -/
structure SubmitResult where
  db : Database
  step : Nat
  aadharError : Option String
  otpError : Option String
  toastShown : Bool
  navigated : Bool
  attempted : List InsertKind
deriving DecidableEq, Repr

/-- Exit taken when a store rejection is thrown and lands in the catch
block of onSubmit (AddPatient.tsx lines 384-387): the generic toast is
shown and nothing else changes. -/
def abortResult (db : Database) (step0 : Nat) (log : List InsertKind) : SubmitResult :=
  { db := db, step := step0, aadharError := none, otpError := none,
    toastShown := true, navigated := false, attempted := log }

/-- The patient row built by insert 1 of onSubmit (AddPatient.tsx lines
279-293); the fresh id is modelled as the current table length. -/
def mkPatientRow (center : String) (data : PatientFormData) (db : Database) : PatientRow :=
  { id := db.pregnant_women.length,
    diagnostic_center_id := center,
    aadhar_number := data.aadharNumber,
    name := data.name.trim,
    age := data.age,
    husband_name := jsTrimOrNull data.husbandName,
    father_name := jsTrimOrNull data.fatherName,
    present_address := data.presentAddress.trim,
    aadhar_card_address := jsTrimOrNull data.aadharCardAddress,
    contact_number := data.contactNumber }

/-- The pregnancy-details row built by insert 2 (AddPatient.tsx lines
303-311). -/
def mkPregnancyRow (data : PatientFormData) (patientId : Nat) (db : Database) : PregnancyRow :=
  { id := db.pregnancy_details.length,
    pregnant_woman_id := patientId,
    last_menstrual_period := data.lastMenstrualPeriod,
    number_of_children_alive := data.numberOfChildrenAlive }

/-- A children row of the insert 3 batch (AddPatient.tsx lines 317-323). -/
def mkChildRow (pregnancyId : Nat) (c : ChildFormData) : ChildRow :=
  { pregnancy_details_id := pregnancyId,
    gender := c.gender,
    age_in_years := c.ageInYears }

/-- The procedure row built by insert 4 (AddPatient.tsx lines 329-339). -/
def mkProcedureRow (data : PatientFormData) (patientId : Nat) (db : Database) : ProcedureRow :=
  { id := db.procedures.length,
    pregnant_woman_id := patientId,
    procedure_date := data.procedureDate,
    attending_doctor_id := data.performingDoctorId,
    referring_doctor_id := data.referringDoctorId,
    scan_performed := data.scanPerformed }

/-- The consent row built by insert 6 (AddPatient.tsx lines 361-378). -/
def mkConsentRow (data : PatientFormData) (patientId : Nat) (nowIso : String) : ConsentRow :=
  { pregnant_woman_id := patientId,
    has_aadhar_registered_mobile := data.hasAadharRegisteredMobile == "true",
    mobile_number := data.consentMobile,
    otp_verified := true,
    verification_details := "Verified at " ++ nowIso,
    relative_name :=
      if data.hasAadharRegisteredMobile == "false" then data.relativeName else none,
    relationship_to_patient :=
      if data.hasAadharRegisteredMobile == "false" then data.relationshipToPatient
      else none,
    relative_contact_number :=
      if data.hasAadharRegisteredMobile == "false" then some data.consentMobile
      else none }

/-- Insert 6 of onSubmit, the consent insert (AddPatient.tsx lines
357-383): on rejection the thrown error reaches the catch block; on
success the row is appended and the page navigates to the dashboard. -/
def submitConsentStage (outcomes : InsertOutcomes) (data : PatientFormData)
    (nowIso : String) (step0 patientId : Nat) (db : Database)
    (log : List InsertKind) : SubmitResult :=
  match outcomes.consentIns with
  | some _ => abortResult db step0 (log ++ [InsertKind.consentIns])
  | none =>
      { db := { db with consent := db.consent ++ [mkConsentRow data patientId nowIso] },
        step := step0, aadharError := none, otpError := none,
        toastShown := false, navigated := true,
        attempted := log ++ [InsertKind.consentIns] }

/-- The procedure-indications batch rows of insert 5 (AddPatient.tsx
lines 347-352): one row per selected indication id, each referencing the
created procedure id. -/
def mkIndicationRows (selected : List Nat) (procedureId : Nat) :
    List ProcedureIndicationRow :=
  selected.map
    (fun indicationId =>
      { procedure_id := procedureId, indication_type_id := indicationId })

/-- Insert 5 of onSubmit, the procedure-indications batch (AddPatient.tsx
lines 343-355): attempted only when some indication is selected; one row
per selected indication id, each referencing the created procedure id. -/
def submitIndicationsStage (outcomes : InsertOutcomes) (data : PatientFormData)
    (nowIso : String) (step0 patientId procedureId : Nat) (db : Database)
    (log : List InsertKind) : SubmitResult :=
  if 0 < data.selectedIndications.length then
    match outcomes.indications with
    | some _ => abortResult db step0 (log ++ [InsertKind.indications])
    | none =>
        submitConsentStage outcomes data nowIso step0 patientId
          { db with procedure_indications :=
              db.procedure_indications ++
                mkIndicationRows data.selectedIndications procedureId }
          (log ++ [InsertKind.indications])
  else
    submitConsentStage outcomes data nowIso step0 patientId db log

/-- Insert 4 of onSubmit, the procedure insert (AddPatient.tsx lines
328-341). -/
def submitProcedureStage (outcomes : InsertOutcomes) (data : PatientFormData)
    (nowIso : String) (step0 patientId : Nat) (db : Database)
    (log : List InsertKind) : SubmitResult :=
  match outcomes.procedure with
  | some _ => abortResult db step0 (log ++ [InsertKind.procedure])
  | none =>
      submitIndicationsStage outcomes data nowIso step0 patientId
        (mkProcedureRow data patientId db).id
        { db with procedures := db.procedures ++ [mkProcedureRow data patientId db] }
        (log ++ [InsertKind.procedure])

/-- Insert 3 of onSubmit, the children batch (AddPatient.tsx lines
315-326): attempted only when the children list is non-empty. -/
def submitChildrenStage (outcomes : InsertOutcomes) (data : PatientFormData)
    (nowIso : String) (step0 patientId pregnancyId : Nat) (db : Database)
    (log : List InsertKind) : SubmitResult :=
  if 0 < data.children.length then
    match outcomes.childrenIns with
    | some _ => abortResult db step0 (log ++ [InsertKind.childrenIns])
    | none =>
        submitProcedureStage outcomes data nowIso step0 patientId
          { db with children := db.children ++ data.children.map (mkChildRow pregnancyId) }
          (log ++ [InsertKind.childrenIns])
  else
    submitProcedureStage outcomes data nowIso step0 patientId db log

/-- Insert 2 of onSubmit, the pregnancy-details insert (AddPatient.tsx
lines 302-313). -/
def submitPregnancyStage (outcomes : InsertOutcomes) (data : PatientFormData)
    (nowIso : String) (step0 patientId : Nat) (db : Database)
    (log : List InsertKind) : SubmitResult :=
  match outcomes.pregnancy with
  | some _ => abortResult db step0 (log ++ [InsertKind.pregnancy])
  | none =>
      submitChildrenStage outcomes data nowIso step0 patientId
        (mkPregnancyRow data patientId db).id
        { db with pregnancy_details :=
            db.pregnancy_details ++ [mkPregnancyRow data patientId db] }
        (log ++ [InsertKind.pregnancy])

/-- The submission sequencer `onSubmit` of AddPatient.tsx lines 266-388:
the consent-verified guard, then the fixed insert order patient ->
pregnancy detail -> children -> procedure -> indications -> consent.
A rejected patient insert whose error has code 23505 and a message
mentioning aadhar_number sets the inline aadhar error and forces the
wizard to step 4 (lines 295-299); any other rejection is thrown to the
catch block, which shows the generic toast; each id produced by an
insert feeds the next insert. -/
def onSubmit (center : String) (consentVerified : Bool) (nowIso : String)
    (outcomes : InsertOutcomes) (data : PatientFormData) (step0 : Nat)
    (db : Database) : SubmitResult :=
  if consentVerified = false then
    { db := db, step := step0, aadharError := none,
      otpError := some "Please verify consent OTP before proceeding",
      toastShown := false, navigated := false, attempted := [] }
  else
    match outcomes.patient with
    | some e =>
        if e.code = "23505" ∧ jsIncludes e.message "aadhar_number" = true then
          { db := db, step := 4,
            aadharError := some "This Aadhar number is already registered in the system",
            otpError := none, toastShown := false, navigated := false,
            attempted := [InsertKind.patient] }
        else
          abortResult db step0 [InsertKind.patient]
    | none =>
        submitPregnancyStage outcomes data nowIso step0
          (mkPatientRow center data db).id
          { db with pregnant_women := db.pregnant_women ++ [mkPatientRow center data db] }
          [InsertKind.patient]

/-- The wizard step under which the national-ID (aadhar) input field is
rendered: the field registered as aadharNumber appears inside the
`step === 1` block of AddPatient.tsx (lines 662-692, "Moved to first
step" per the comment on line 49). -/
def aadharFieldStep : Nat := 1

/-- A fully filled wizard record used as concrete input. -/
def sampleForm : PatientFormData :=
  { aadharNumber := "999988887777", name := "Asha", age := 28,
    husbandName := some "Ravi", fatherName := none,
    presentAddress := "12 Gandhi Road Pune", aadharCardAddress := none,
    contactNumber := "9876543210", lastMenstrualPeriod := "2026-05-01",
    numberOfChildrenAlive := 1,
    children := [{ gender := "Female", ageInYears := 3 }],
    performingDoctorId := "doc1", referringDoctorId := "doc2",
    selectedIndications := [2, 5], procedureDate := "2026-10-11",
    hasAadharRegisteredMobile := "true", consentMobile := "9876543210",
    consentOtp := "123456", relativeName := none,
    relationshipToPatient := none, scanPerformed := "scan1" }

/-- A store rejection of the pregnancy-details insert. -/
def pregnancyDbError : DbError := { code := "500", message := "insert rejected" }

/-- Outcomes where the patient insert succeeds and the pregnancy-details
insert is rejected. -/
def failPregnancyOutcomes : InsertOutcomes :=
  { patient := none, pregnancy := some pregnancyDbError, childrenIns := none,
    procedure := none, indications := none, consentIns := none }

/-- Outcomes where every insert succeeds. -/
def allOkOutcomes : InsertOutcomes :=
  { patient := none, pregnancy := none, childrenIns := none,
    procedure := none, indications := none, consentIns := none }

/-- The uniqueness-violation rejection of the patient insert: Postgres
error code 23505 with the constraint name in the message. -/
def dupKeyError : DbError :=
  { code := "23505",
    message :=
      "duplicate key value violates unique constraint pregnant_women_aadhar_number_key" }

/-- Outcomes where the patient insert is rejected with the national-ID
uniqueness violation. -/
def dupOutcomes : InsertOutcomes :=
  { patient := some dupKeyError, pregnancy := none, childrenIns := none,
    procedure := none, indications := none, consentIns := none }

/-- The procedure row that a fully successful run of onSubmit creates:
its fresh id is the pre-run length of the procedures table and it
references the patient row created in the same run (whose fresh id is
the pre-run length of the pregnant_women table). -/
def createdProcedureRow (data : PatientFormData) (db : Database) : ProcedureRow :=
  { id := db.procedures.length,
    pregnant_woman_id := db.pregnant_women.length,
    procedure_date := data.procedureDate,
    attending_doctor_id := data.performingDoctorId,
    referring_doctor_id := data.referringDoctorId,
    scan_performed := data.scanPerformed }

/-- A child row as joined into the export query (Dashboard.tsx lines
128-131). -/
structure ExportChild where
  gender : String
  age_in_years : Nat
deriving DecidableEq, Repr

/-- A pregnancy-details row as joined into the export query
(Dashboard.tsx lines 125-132); the LMP value is the UTC millisecond
timestamp of the parsed date string, `none` when null. -/
structure ExportPregnancyDetail where
  last_menstrual_period : Option Int
  number_of_children_alive : Option Nat
  children : List ExportChild
deriving DecidableEq, Repr

/-- A patient row as fetched by the export query of Dashboard.tsx lines
121-150, with the fields the modelled CSV columns read; created_at is a
UTC millisecond timestamp. -/
structure DashPatientRow where
  created_at : Int
  name : String
  age : Nat
  husband_name : Option String
  father_name : Option String
  present_address : String
  pregnancy_details : List ExportPregnancyDetail
deriving DecidableEq, Repr

/-- The created_at window of the export query (Dashboard.tsx lines
149-150): `.gte(created_at, firstDayOfMonth).lte(created_at, now)`. -/
def inExportWindow (firstDayOfMonth now : Int) (p : DashPatientRow) : Bool :=
  decide (firstDayOfMonth ≤ p.created_at) && decide (p.created_at ≤ now)

/-- The LMP of a fetched patient:
`patient.pregnancy_details?.[0]?.last_menstrual_period` (Dashboard.tsx
line 157). -/
def lmpOf (p : DashPatientRow) : Option Int :=
  p.pregnancy_details.head?.bind (fun d => d.last_menstrual_period)

/-- Milliseconds in 280 days, the EDD offset of Dashboard.tsx line 158. -/
def eddOffsetMs : Int := 280 * 24 * 60 * 60 * 1000

/-- Stand-in for `Date.toLocaleDateString()`: renders the timestamp.  The
exact text of the rendering is presentational; what matters is which
timestamp is rendered and that a null EDD renders as the empty string. -/
def msToString (t : Int) : String := toString t

/-- One CSV data row of the export, with the columns the model covers
(interface ExportPatientData and the mapping of Dashboard.tsx lines
155-201). -/
structure CsvRow where
  sNo : Nat
  dateMs : Int
  patientName : String
  age : Nat
  gender : String
  husbandName : String
  fatherName : String
  lmpCell : Option Int
  eddCol : String
  totalChildren : Nat
  girlsCount : Nat
  boysCount : Nat
deriving DecidableEq, Repr

/-- The row construction of Dashboard.tsx lines 155-201 for the patient
at position `index` of the fetched list: EDD is LMP plus 280 days in
milliseconds when an LMP is present, rendered from null as the empty
string; children are split by lower-cased gender. -/
def toCsvRow (index : Nat) (p : DashPatientRow) : CsvRow :=
  let lmp := lmpOf p
  let children := (p.pregnancy_details.head?.map (fun d => d.children)).getD []
  { sNo := index + 1,
    dateMs := p.created_at,
    patientName := p.name,
    age := p.age,
    gender := "Female",
    husbandName := p.husband_name.getD "",
    fatherName := p.father_name.getD "",
    lmpCell := lmp,
    eddCol :=
      match lmp with
      | some t => msToString (t + eddOffsetMs)
      | none => "",
    totalChildren :=
      (p.pregnancy_details.head?.bind (fun d => d.number_of_children_alive)).getD 0,
    girlsCount := (children.filter (fun c => c.gender.toLower == "female")).length,
    boysCount := (children.filter (fun c => c.gender.toLower == "male")).length }

/-- The indexed map `.map((patient, index) => ...)` of Dashboard.tsx line
155 over the fetched list. -/
def exportRowsFrom : Nat → List DashPatientRow → List CsvRow
  | _, [] => []
  | i, p :: ps => toCsvRow i p :: exportRowsFrom (i + 1) ps

/-- The csvData of exportToCSV (Dashboard.tsx lines 112-201): the client
fetches the patients whose created_at lies in [firstDayOfMonth, now] and
maps each to one CSV data row. -/
def exportCsvData (patients : List DashPatientRow) (firstDayOfMonth now : Int) :
    List CsvRow :=
  exportRowsFrom 0 (patients.filter (inExportWindow firstDayOfMonth now))

theorem exportRowsFrom_length (i : Nat) (l : List DashPatientRow) :
    (exportRowsFrom i l).length = l.length := by
  induction l generalizing i with
  | nil => rfl
  | cons p ps ih => simp [exportRowsFrom, ih]

theorem mem_exportRowsFrom (row : CsvRow) (i : Nat) (l : List DashPatientRow)
    (h : row ∈ exportRowsFrom i l) : ∃ k p, p ∈ l ∧ row = toCsvRow k p := by
  induction l generalizing i with
  | nil => simp [exportRowsFrom] at h
  | cons p ps ih =>
      rcases List.mem_cons.mp h with h1 | h1
      · exact ⟨i, p, List.mem_cons_self p ps, h1⟩
      · obtain ⟨k, q, hq, hrow⟩ := ih (i + 1) h1
        exact ⟨k, q, List.mem_cons_of_mem p hq, hrow⟩

/-- C6: for every mobile-number input string, `validatePhoneNumber`
accepts exactly when the string consists of exactly 10 decimal digits
whose first digit is between 6 and 9. -/
theorem validatePhoneNumber_pass_iff (s : String) :
    validatePhoneNumber s = ValidateResult.pass ↔
      (s.data.length = 10 ∧ (∀ c ∈ s.data, isDigitChar c = true) ∧
        ∃ c cs, s.data = c :: cs ∧ '6' ≤ c ∧ c ≤ '9') := by
  unfold validatePhoneNumber
  rcases hd : s.data with _ | ⟨c, cs⟩
  · simp [phoneRegexTest, hd]
  · constructor
    · intro hpass
      have htest : phoneRegexTest s = true := by
        by_contra hfalse
        rw [Bool.not_eq_true] at hfalse
        rw [if_neg (by simp [hfalse])] at hpass
        exact ValidateResult.noConfusion hpass
      unfold phoneRegexTest at htest
      rw [hd] at htest
      simp only [Bool.and_eq_true, decide_eq_true_eq, beq_iff_eq,
        List.all_eq_true] at htest
      obtain ⟨⟨h6, h9⟩, hlen, hall⟩ := htest
      have hdc : isDigitChar c = true := by
        unfold isDigitChar
        simp only [Bool.and_eq_true, decide_eq_true_eq]
        exact ⟨le_trans (by decide) h6, h9⟩
      refine ⟨by simp [hd, hlen], ?_, c, cs, rfl, h6, h9⟩
      intro x hx
      rcases List.mem_cons.mp hx with h | h
      · rw [h]; exact hdc
      · exact hall x h
    · rintro ⟨hlen, hall, c', cs', heq, h6, h9⟩
      obtain ⟨rfl, rfl⟩ : c = c' ∧ cs = cs' := by
        exact ⟨(List.cons.injEq _ _ _ _ ▸ heq).1, (List.cons.injEq _ _ _ _ ▸ heq).2⟩
      have htest : phoneRegexTest s = true := by
        unfold phoneRegexTest
        rw [hd]
        simp only [Bool.and_eq_true, decide_eq_true_eq, beq_iff_eq,
          List.all_eq_true]
        refine ⟨⟨h6, h9⟩, by simpa using hlen, ?_⟩
        intro x hx
        exact hall x (List.mem_cons_of_mem _ hx)
      rw [if_pos htest]

/-- C4 (divergence witness): the consent OTP widget shows the OTP entry
field even when the mobile-number field fails the validator.  The guard
of `handleSendConsentOtp` tests JS truthiness of the validator result,
and the failure value is a non-empty message string, hence truthy, so
the error branch of the handler is unreachable and the transition
Unsent to OtpShown happens for every input. -/
theorem sendOtp_shows_field_for_invalid_mobile :
    validatePhoneNumber "123" ≠ ValidateResult.pass ∧
    jsTruthy (validatePhoneNumber "123") = true ∧
    (handleSendConsentOtp "123" unsentConsentState).showConsentOtp = true ∧
    (handleSendConsentOtp "123" unsentConsentState).consentMobileError = none := by
  refine ⟨by decide, by decide, ?_, ?_⟩ <;> decide

/-- C5: for every entered code other than the fixed value "123456",
`handleVerifyConsentOtp` leaves the verified flag and the shown flag
unchanged (so from state OtpShown the state remains OtpShown and never
becomes Verified) and records a field-level error. -/
theorem verifyOtp_rejects_wrong_code (code : String) (s : ConsentOtpState)
    (h : code ≠ "123456") :
    (handleVerifyConsentOtp code s).consentVerified = s.consentVerified ∧
    (handleVerifyConsentOtp code s).showConsentOtp = s.showConsentOtp ∧
    (handleVerifyConsentOtp code s).consentOtpError = some "Invalid OTP" := by
  unfold handleVerifyConsentOtp
  rw [if_neg h]
  exact ⟨rfl, rfl, rfl⟩

/-- Witness for C5: the code "000000" is rejected from state OtpShown. -/
theorem verifyOtp_rejects_wrong_code_witness :
    ("000000" : String) ≠ "123456" ∧
    ((handleVerifyConsentOtp "000000" otpShownState).consentVerified
        = otpShownState.consentVerified ∧
      (handleVerifyConsentOtp "000000" otpShownState).showConsentOtp
        = otpShownState.showConsentOtp ∧
      (handleVerifyConsentOtp "000000" otpShownState).consentOtpError
        = some "Invalid OTP") :=
  ⟨by decide, verifyOtp_rejects_wrong_code "000000" otpShownState (by decide)⟩

/-- C8: a 12-digit national ID value already present in the patient table
makes `validateAadharNumber` return the rejection message, never a pass. -/
theorem validateAadhar_rejects_registered (value : String) (registered : List String)
    (h12 : aadharRegexTest value = true) (hmem : value ∈ registered) :
    validateAadharNumber value registered
        = ValidateResult.fail "This Aadhar number is already registered" ∧
    validateAadharNumber value registered ≠ ValidateResult.pass := by
  unfold validateAadharNumber
  rw [h12]
  simp [hmem]

/-- Witness for C8: the registered 12-digit value "123456789012" is
rejected. -/
theorem validateAadhar_rejects_registered_witness :
    aadharRegexTest "123456789012" = true ∧
    ("123456789012" : String) ∈ ["123456789012"] ∧
    (validateAadharNumber "123456789012" ["123456789012"]
        = ValidateResult.fail "This Aadhar number is already registered" ∧
      validateAadharNumber "123456789012" ["123456789012"] ≠ ValidateResult.pass) :=
  ⟨by decide, by decide,
    validateAadhar_rejects_registered "123456789012" ["123456789012"]
      (by decide) (by decide)⟩

/-- Sanity check of the day-number arithmetic: the Unix epoch is day 0,
and 2026-10-11 (JS month index 9) is day 20737. -/
theorem daysFromCivil_epoch :
    daysFromCivil 1970 1 1 = 0 ∧ toDayNumber ⟨2026, 9, 11⟩ = 20737 := by
  constructor <;> decide

/-- Sanity check of the JS setMonth model: 2026-10-11 minus 9 months is
2026-01-11, and 2025-12-31 minus 9 months is 2025-03-31 with the
day-of-month preserved; 2025-11-30 minus 9 months overflows February
2025 (28 days) and rolls over to 2025-03-02. -/
theorem jsSetMonth_examples :
    nineMonthsBefore ⟨2026, 9, 11⟩ = toDayNumber ⟨2026, 0, 11⟩ ∧
    nineMonthsBefore ⟨2025, 11, 31⟩ = toDayNumber ⟨2025, 2, 31⟩ ∧
    nineMonthsBefore ⟨2025, 10, 30⟩ = toDayNumber ⟨2025, 2, 2⟩ := by
  refine ⟨by decide, by decide, by decide⟩

/-- C7: the LMP validator rejects (with the matching messages) exactly
the dates strictly after today and the dates strictly before today minus
9 calendar months, and accepts exactly the dates in between. -/
theorem validateLMP_characterization (lmp today : CivilDate) :
    (validateLMP lmp today = ValidateResult.fail "LMP date cannot be in the future"
        ↔ toDayNumber today < toDayNumber lmp) ∧
    (validateLMP lmp today = ValidateResult.fail "LMP date cannot be more than 9 months ago"
        ↔ (toDayNumber lmp ≤ toDayNumber today ∧
            toDayNumber lmp < nineMonthsBefore today)) ∧
    (validateLMP lmp today = ValidateResult.pass
        ↔ (nineMonthsBefore today ≤ toDayNumber lmp ∧
            toDayNumber lmp ≤ toDayNumber today)) := by
  unfold validateLMP
  split_ifs with h1 h2 <;> refine ⟨?_, ?_, ?_⟩ <;>
    simp_all

/-- C3 counterexample: a wizard state on step 1 whose required
presentAddress field is absent (it fails its required/min-length
validator and its error flag is set), yet the Continue gate allows
advancement and the step counter increases from 1 to 2, refuting the
claim that advancement is blocked whenever some required field of the
current step is absent or invalid. -/
theorem continue_allowed_with_invalid_required_field :
    FormField.presentAddress ∈ requiredFieldsOfStep 1 ∧
    (step1Errors step1MissingAddress []).presentAddress = true ∧
    canProceedToNextStep 1 (step1Errors step1MissingAddress []) = true ∧
    continueStep 1 (step1Errors step1MissingAddress []) = 2 := by
  refine ⟨by decide, by decide, by decide, ?_⟩
  unfold continueStep
  rw [if_pos ⟨by decide, by decide⟩]

/-- C3 (amended): the Continue operation increments the step counter
exactly when the step is below 4 and none of the fields the gate
consults for that step carries an error; the consulted sets are the
fixed per-step subsets of `checkedFieldsOfStep`, which on step 1 omit
the required aadharNumber and presentAddress fields. -/
theorem continueStep_gating (step : Nat) (e : FieldErrors) :
    continueStep step e =
      if step < 4 ∧ (∀ f ∈ checkedFieldsOfStep step, fieldError e f = false)
      then step + 1 else step := by
  have hiff : (step < 4 ∧ canProceedToNextStep step e = true) ↔
      (step < 4 ∧ (∀ f ∈ checkedFieldsOfStep step, fieldError e f = false)) := by
    refine and_congr_right (fun _ => ?_)
    rcases step with _ | _ | _ | _ | _ | n <;>
      simp [canProceedToNextStep, checkedFieldsOfStep, fieldError, and_assoc]
  unfold continueStep
  rw [if_congr hiff rfl rfl]

/-- C1: when the patient insert succeeds and the pregnancy-detail insert
is rejected, the sequence stops after those two attempts (no children,
procedure, indication or consent insert is attempted) and the inserted
patient row is still in the pregnant_women table afterwards, every other
table being untouched. -/
theorem submit_keeps_patient_on_pregnancy_failure
    (center nowIso : String) (outcomes : InsertOutcomes) (data : PatientFormData)
    (step0 : Nat) (db : Database) (e : DbError)
    (hp : outcomes.patient = none) (hq : outcomes.pregnancy = some e) :
    (onSubmit center true nowIso outcomes data step0 db).attempted
        = [InsertKind.patient, InsertKind.pregnancy] ∧
    (onSubmit center true nowIso outcomes data step0 db).db.pregnant_women
        = db.pregnant_women ++ [mkPatientRow center data db] ∧
    mkPatientRow center data db
        ∈ (onSubmit center true nowIso outcomes data step0 db).db.pregnant_women ∧
    (onSubmit center true nowIso outcomes data step0 db).db.pregnancy_details
        = db.pregnancy_details ∧
    (onSubmit center true nowIso outcomes data step0 db).db.children
        = db.children ∧
    (onSubmit center true nowIso outcomes data step0 db).db.procedures
        = db.procedures ∧
    (onSubmit center true nowIso outcomes data step0 db).db.procedure_indications
        = db.procedure_indications ∧
    (onSubmit center true nowIso outcomes data step0 db).db.consent
        = db.consent := by
  unfold onSubmit submitPregnancyStage abortResult
  rw [hp, hq]
  simp

/-- Witness for C1 at concrete inputs: the pregnancy insert is rejected
after a successful patient insert into the empty database. -/
theorem submit_keeps_patient_on_pregnancy_failure_witness :
    failPregnancyOutcomes.patient = none ∧
    failPregnancyOutcomes.pregnancy = some pregnancyDbError ∧
    ((onSubmit "centre1" true "2026-10-11T10:00:00Z" failPregnancyOutcomes
        sampleForm 4 emptyDb).attempted
          = [InsertKind.patient, InsertKind.pregnancy] ∧
      (onSubmit "centre1" true "2026-10-11T10:00:00Z" failPregnancyOutcomes
        sampleForm 4 emptyDb).db.pregnant_women
          = emptyDb.pregnant_women ++ [mkPatientRow "centre1" sampleForm emptyDb] ∧
      mkPatientRow "centre1" sampleForm emptyDb
          ∈ (onSubmit "centre1" true "2026-10-11T10:00:00Z" failPregnancyOutcomes
              sampleForm 4 emptyDb).db.pregnant_women ∧
      (onSubmit "centre1" true "2026-10-11T10:00:00Z" failPregnancyOutcomes
        sampleForm 4 emptyDb).db.pregnancy_details = emptyDb.pregnancy_details ∧
      (onSubmit "centre1" true "2026-10-11T10:00:00Z" failPregnancyOutcomes
        sampleForm 4 emptyDb).db.children = emptyDb.children ∧
      (onSubmit "centre1" true "2026-10-11T10:00:00Z" failPregnancyOutcomes
        sampleForm 4 emptyDb).db.procedures = emptyDb.procedures ∧
      (onSubmit "centre1" true "2026-10-11T10:00:00Z" failPregnancyOutcomes
        sampleForm 4 emptyDb).db.procedure_indications
          = emptyDb.procedure_indications ∧
      (onSubmit "centre1" true "2026-10-11T10:00:00Z" failPregnancyOutcomes
        sampleForm 4 emptyDb).db.consent = emptyDb.consent) :=
  ⟨rfl, rfl,
    submit_keeps_patient_on_pregnancy_failure "centre1" "2026-10-11T10:00:00Z"
      failPregnancyOutcomes sampleForm 4 emptyDb pregnancyDbError rfl rfl⟩

/-- C2 counterexample: at a concrete uniqueness-violation input the
handler leaves the wizard on step 4 (forced by setStep(4)), while the
step that contains the national-ID field is step 1, so the submission
handler does not navigate to the step containing that field; the inline
aadhar message is set and the generic toast is skipped. -/
theorem submit_dup_aadhar_not_sent_to_field_step :
    dupKeyError.code = "23505" ∧
    jsIncludes dupKeyError.message "aadhar_number" = true ∧
    (onSubmit "centre1" true "2026-10-11T10:00:00Z" dupOutcomes sampleForm 4
        emptyDb).step = 4 ∧
    aadharFieldStep = 1 ∧
    (onSubmit "centre1" true "2026-10-11T10:00:00Z" dupOutcomes sampleForm 4
        emptyDb).step ≠ aadharFieldStep ∧
    (onSubmit "centre1" true "2026-10-11T10:00:00Z" dupOutcomes sampleForm 4
        emptyDb).aadharError
      = some "This Aadhar number is already registered in the system" ∧
    (onSubmit "centre1" true "2026-10-11T10:00:00Z" dupOutcomes sampleForm 4
        emptyDb).toastShown = false := by
  refine ⟨rfl, by decide, by decide, rfl, by decide, by decide, by decide⟩

/-- C2 (amended): a patient-insert rejection carrying code 23505 and a
message mentioning aadhar_number makes the handler set the inline
national-ID error message and force the wizard to step 4 (the consent
step, not the step rendering the national-ID field), abort the sequence
after the single patient attempt, leave the database untouched and skip
the generic failure toast. -/
theorem submit_dup_aadhar_sets_error_and_step4
    (center nowIso : String) (outcomes : InsertOutcomes) (data : PatientFormData)
    (step0 : Nat) (db : Database) (e : DbError)
    (hp : outcomes.patient = some e) (hcode : e.code = "23505")
    (hmsg : jsIncludes e.message "aadhar_number" = true) :
    (onSubmit center true nowIso outcomes data step0 db).step = 4 ∧
    (onSubmit center true nowIso outcomes data step0 db).aadharError
        = some "This Aadhar number is already registered in the system" ∧
    (onSubmit center true nowIso outcomes data step0 db).toastShown = false ∧
    (onSubmit center true nowIso outcomes data step0 db).navigated = false ∧
    (onSubmit center true nowIso outcomes data step0 db).db = db ∧
    (onSubmit center true nowIso outcomes data step0 db).attempted
        = [InsertKind.patient] := by
  unfold onSubmit
  rw [hp]
  simp only [Bool.true_eq_false, if_false]
  rw [if_pos ⟨hcode, hmsg⟩]
  exact ⟨rfl, rfl, rfl, rfl, rfl, rfl⟩

/-- Witness for the amended C2 at the concrete uniqueness-violation
input. -/
theorem submit_dup_aadhar_sets_error_and_step4_witness :
    dupOutcomes.patient = some dupKeyError ∧
    dupKeyError.code = "23505" ∧
    jsIncludes dupKeyError.message "aadhar_number" = true ∧
    ((onSubmit "centre2" true "2026-10-11T11:00:00Z" dupOutcomes sampleForm 4
        emptyDb).step = 4 ∧
      (onSubmit "centre2" true "2026-10-11T11:00:00Z" dupOutcomes sampleForm 4
          emptyDb).aadharError
        = some "This Aadhar number is already registered in the system" ∧
      (onSubmit "centre2" true "2026-10-11T11:00:00Z" dupOutcomes sampleForm 4
          emptyDb).toastShown = false ∧
      (onSubmit "centre2" true "2026-10-11T11:00:00Z" dupOutcomes sampleForm 4
          emptyDb).navigated = false ∧
      (onSubmit "centre2" true "2026-10-11T11:00:00Z" dupOutcomes sampleForm 4
          emptyDb).db = emptyDb ∧
      (onSubmit "centre2" true "2026-10-11T11:00:00Z" dupOutcomes sampleForm 4
          emptyDb).attempted = [InsertKind.patient]) :=
  ⟨rfl, rfl, by decide,
    submit_dup_aadhar_sets_error_and_step4 "centre2" "2026-10-11T11:00:00Z"
      dupOutcomes sampleForm 4 emptyDb dupKeyError rfl rfl (by decide)⟩

/-- C9: when the earlier inserts all succeed, the run appends exactly one
procedure row, and appends to procedure_indications exactly one row per
selected indication id (so N selected ids give N rows, also for N = 0),
each row carrying the id of the procedure row created in the same run. -/
theorem submit_creates_indication_rows
    (center nowIso : String) (outcomes : InsertOutcomes) (data : PatientFormData)
    (step0 : Nat) (db : Database)
    (h1 : outcomes.patient = none) (h2 : outcomes.pregnancy = none)
    (h3 : outcomes.childrenIns = none) (h4 : outcomes.procedure = none)
    (h5 : outcomes.indications = none) :
    (onSubmit center true nowIso outcomes data step0 db).db.procedures
        = db.procedures ++ [createdProcedureRow data db] ∧
    (onSubmit center true nowIso outcomes data step0 db).db.procedure_indications
        = db.procedure_indications ++
            mkIndicationRows data.selectedIndications (createdProcedureRow data db).id ∧
    (mkIndicationRows data.selectedIndications (createdProcedureRow data db).id).length
        = data.selectedIndications.length ∧
    (∀ row ∈ mkIndicationRows data.selectedIndications (createdProcedureRow data db).id,
        row.procedure_id = (createdProcedureRow data db).id) := by
  unfold onSubmit submitPregnancyStage submitChildrenStage submitProcedureStage
    submitIndicationsStage submitConsentStage abortResult
  rw [h1, h2, h3, h4, h5]
  cases hcons : outcomes.consentIns <;>
    split_ifs with hch hsel <;>
      simp_all [mkIndicationRows, mkProcedureRow, mkPatientRow, mkPregnancyRow,
        createdProcedureRow, List.length_eq_zero]

/-- Witness for C9 at concrete inputs: two selected indications give two
join rows referencing the created procedure id. -/
theorem submit_creates_indication_rows_witness :
    allOkOutcomes.patient = none ∧ allOkOutcomes.pregnancy = none ∧
    allOkOutcomes.childrenIns = none ∧ allOkOutcomes.procedure = none ∧
    allOkOutcomes.indications = none ∧
    ((onSubmit "centre1" true "2026-10-11T10:00:00Z" allOkOutcomes sampleForm 4
        emptyDb).db.procedures
          = emptyDb.procedures ++ [createdProcedureRow sampleForm emptyDb] ∧
      (onSubmit "centre1" true "2026-10-11T10:00:00Z" allOkOutcomes sampleForm 4
        emptyDb).db.procedure_indications
          = emptyDb.procedure_indications ++
              mkIndicationRows sampleForm.selectedIndications
                (createdProcedureRow sampleForm emptyDb).id ∧
      (mkIndicationRows sampleForm.selectedIndications
          (createdProcedureRow sampleForm emptyDb).id).length
        = sampleForm.selectedIndications.length ∧
      (∀ row ∈ mkIndicationRows sampleForm.selectedIndications
          (createdProcedureRow sampleForm emptyDb).id,
        row.procedure_id = (createdProcedureRow sampleForm emptyDb).id)) :=
  ⟨rfl, rfl, rfl, rfl, rfl,
    submit_creates_indication_rows "centre1" "2026-10-11T10:00:00Z" allOkOutcomes
      sampleForm 4 emptyDb rfl rfl rfl rfl rfl⟩

/-- C10: when no fetched patient has a creation timestamp after the
export instant and the export runs before the month ends, the CSV export
produces exactly one data row per patient whose creation timestamp lies
in the current calendar month [firstDayOfMonth, monthEnd), and every
data row comes from a fetched patient with its EDD column equal to that
patient's LMP plus 280 days when an LMP is present and to the empty
string otherwise. -/
theorem exportCsv_month_and_edd (patients : List DashPatientRow)
    (firstDayOfMonth now monthEnd : Int)
    (hnow : ∀ p ∈ patients, p.created_at ≤ now)
    (hmonth : now < monthEnd) :
    (exportCsvData patients firstDayOfMonth now).length
        = (patients.filter
            (fun p => decide (firstDayOfMonth ≤ p.created_at ∧
              p.created_at < monthEnd))).length ∧
    ∀ row ∈ exportCsvData patients firstDayOfMonth now,
      ∃ p, p ∈ patients ∧ row.lmpCell = lmpOf p ∧
        row.eddCol =
          (match lmpOf p with
            | some t => msToString (t + eddOffsetMs)
            | none => "") := by
  constructor
  · rw [exportCsvData, exportRowsFrom_length]
    have hfil : patients.filter (inExportWindow firstDayOfMonth now)
        = patients.filter
            (fun p => decide (firstDayOfMonth ≤ p.created_at ∧
              p.created_at < monthEnd)) := by
      apply List.filter_congr
      intro p hp
      have h1 : p.created_at ≤ now := hnow p hp
      have h2 : p.created_at < monthEnd := lt_of_le_of_lt h1 hmonth
      simp [inExportWindow, h1, h2]
    rw [hfil]
  · intro row hrow
    obtain ⟨k, p, hp, hrowEq⟩ :=
      mem_exportRowsFrom row 0 (patients.filter (inExportWindow firstDayOfMonth now)) hrow
    refine ⟨p, (List.mem_filter.mp hp).1, ?_, ?_⟩ <;>
      rw [hrowEq] <;> rfl

/-- Witness for C10: one patient created inside the month window and one
created before it give a single data row whose EDD column is its LMP
plus 280 days. -/
theorem exportCsv_month_and_edd_witness :
    (∀ p ∈ [(⟨150, "Asha", 28, none, none, "12 Gandhi Road Pune",
        [⟨some 0, some 1, [⟨"Female", 3⟩]⟩]⟩ : DashPatientRow),
      ⟨50, "Binu", 30, none, none, "14 Gandhi Road Pune", []⟩],
        p.created_at ≤ 200) ∧
    (200 : Int) < 300 ∧
    ((exportCsvData [⟨150, "Asha", 28, none, none, "12 Gandhi Road Pune",
        [⟨some 0, some 1, [⟨"Female", 3⟩]⟩]⟩,
      ⟨50, "Binu", 30, none, none, "14 Gandhi Road Pune", []⟩] 100 200).length
        = ([(⟨150, "Asha", 28, none, none, "12 Gandhi Road Pune",
            [⟨some 0, some 1, [⟨"Female", 3⟩]⟩]⟩ : DashPatientRow),
          ⟨50, "Binu", 30, none, none, "14 Gandhi Road Pune", []⟩].filter
            (fun p => decide ((100 : Int) ≤ p.created_at ∧
              p.created_at < 300))).length ∧
      ∀ row ∈ exportCsvData [⟨150, "Asha", 28, none, none, "12 Gandhi Road Pune",
          [⟨some 0, some 1, [⟨"Female", 3⟩]⟩]⟩,
        ⟨50, "Binu", 30, none, none, "14 Gandhi Road Pune", []⟩] 100 200,
        ∃ p, p ∈ [(⟨150, "Asha", 28, none, none, "12 Gandhi Road Pune",
            [⟨some 0, some 1, [⟨"Female", 3⟩]⟩]⟩ : DashPatientRow),
          ⟨50, "Binu", 30, none, none, "14 Gandhi Road Pune", []⟩] ∧
          row.lmpCell = lmpOf p ∧
          row.eddCol =
            (match lmpOf p with
              | some t => msToString (t + eddOffsetMs)
              | none => "")) :=
  ⟨by decide, by decide,
    exportCsv_month_and_edd _ 100 200 300 (by decide) (by decide)⟩

end App
